import Mathlib

/-! Verification of the gpsd_client Home Assistant sensor platform
(src/custom_components/gpsd_client/sensor.py) against its specification.

The module has two operations:
* the setup routine (async_setup_platform), which reads a GPSD message
  stream until a DEVICES message arrives, derives a unique id from the
  first device entry via slugify, and adds the sensor entity;
* the per-poll update (GpsdClient.async_update / get_tpv), which reads a
  fresh stream until a TPV message arrives and copies its fields into the
  sensor state, swallowing every exception.

Python semantics modelled explicitly:
* dict.get(k) returning None for a missing key is Option;
* dict.get("mode", 0) is Option.getD 0;
* a raised Python exception is a value of PyExc propagated via Except;
* gps_data["devices"] on a dict without that key raises KeyError and
  list[0] on an empty list raises IndexError;
* the f-string interpolation of None renders the text "None";
* "if not unique_id" is true for Python None and for the empty string;
* slugify lowercases its input and joins the maximal alphanumeric runs
  with a hyphen (python-slugify default behaviour on ASCII input).
-/

/-- Python string rendering of an optional string inside an f-string:
None renders as the four-character text "None". -/
def pyStr : Option String → String
  | none => "None"
  | some s => s

/-- Python truthiness test "not unique_id" on an optional string:
true for None and for the empty string. -/
def pyFalsyOpt : Option String → Bool
  | none => true
  | some s => s = ""

/-- Characters kept by slugify after lowercasing: ASCII lowercase letters
and digits.  Every other character acts as a separator. -/
def isSlugChar (c : Char) : Bool :=
  (('a' ≤ c) && (c ≤ 'z')) || (('0' ≤ c) && (c ≤ '9'))

/-- Maximal runs of slug characters in a character list; acc holds the
current run in reverse.  A non-slug character or the end of the input
closes the current run. -/
def slugRuns : List Char → List Char → List (List Char)
  | [], acc => if acc.isEmpty then [] else [acc.reverse]
  | c :: cs, acc =>
    if isSlugChar c then slugRuns cs (c :: acc)
    else if acc.isEmpty then slugRuns cs []
    else acc.reverse :: slugRuns cs []

/-- The lowercased character data of a string. -/
def lowerData (s : String) : List Char :=
  s.data.map Char.toLower

/-- The slug tokens of a string: the maximal alphanumeric runs of its
lowercased text, in order. -/
def slugTokens (s : String) : List String :=
  (slugRuns (lowerData s) []).map List.asString

/-- python-slugify with default settings, restricted to ASCII input:
lowercase, replace every run of non-alphanumeric characters by a single
hyphen, strip leading and trailing hyphens. -/
def slugify (s : String) : String :=
  String.intercalate "-" (slugTokens s)

/-- One entry of the device list of a DEVICES message; every field is
optional and read with dict.get. -/
structure Device where
  path : Option String
  driver : Option String
  subtype : Option String
deriving DecidableEq, Repr

/-- A decoded GPSD message as yielded by dict_stream.  The field cls is
the mandatory "class" key; devices models the optional "devices" key of
a DEVICES message; the remaining fields model the optional TPV keys.
The value type of the numeric/time fields is abstract (α). -/
structure Message (α : Type) where
  cls : String
  devices : Option (List Device)
  lat : Option α
  lon : Option α
  alt : Option α
  time : Option α
  speed : Option α
  climb : Option α
  mode : Option Int
deriving DecidableEq, Repr

/-- A TPV-free constructor for messages that only carry a class and an
optional device list (as setup-time streams use). -/
def Message.ofDevices (cls : String) (devices : Option (List Device)) : Message α :=
  ⟨cls, devices, none, none, none, none, none, none, none⟩

/-- The Python exceptions relevant to this module.  connectionError and
environmentError are the classes caught by the setup routine; keyError
and indexError arise from the devices[...] accesses; other stands for
any further Exception subclass.  All of them are Exception subclasses,
so the poller catches every one. -/
inductive PyExc where
  | connectionError
  | environmentError
  | keyError
  | indexError
  | other
deriving DecidableEq, Repr

/-- Whether the except clause of async_setup_platform, which names
ConnectionError and EnvironmentError, catches the exception. -/
def isSetupCaught : PyExc → Bool
  | .connectionError => true
  | .environmentError => true
  | _ => false

/-- The behaviour of one dict_stream iteration as seen by a consumer:
the stream yields a finite list of messages and then either ends
normally (the socket closed) or raises an exception. -/
inductive StreamOutcome (α : Type) where
  | ends (msgs : List (Message α))
  | raises (msgs : List (Message α)) (e : PyExc)
deriving DecidableEq, Repr

/-- The messages a stream yields before terminating. -/
def StreamOutcome.msgs : StreamOutcome α → List (Message α)
  | .ends ms => ms
  | .raises ms _ => ms

/-- Sensor state: the fields set in GpsdClient.__init__ of sensor.py.
hass is an external collaborator and is not modelled. -/
structure GpsdClient (α : Type) where
  name : String
  host : String
  port : Nat
  uid : Option String
  lat : Option α
  lon : Option α
  alt : Option α
  time : Option α
  speed : Option α
  climb : Option α
  mode : Int
deriving DecidableEq, Repr

/-- GpsdClient.__init__: position fields start as None and mode as 0. -/
def GpsdClient.init (name host : String) (port : Nat) (uid : Option String) :
    GpsdClient α :=
  ⟨name, host, port, uid, none, none, none, none, none, none, 0⟩

/-- The unique id derived by the setup routine from the first device
entry: slugify of the f-string joining path, driver and subtype with
underscores (a missing field renders as the text "None"). -/
def deriveUid (d : Device) : String :=
  slugify (pyStr d.path ++ "_" ++ pyStr d.driver ++ "_" ++ pyStr d.subtype)

/-- The result of the setup routine: the entity was added, or the
except clause returned after logging (handled failure), or an
exception escaped the routine. -/
inductive SetupResult (α : Type) where
  | added (ent : GpsdClient α)
  | handledFailure
  | uncaught (e : PyExc)
deriving DecidableEq, Repr

/-- The for-loop of async_setup_platform over the yielded messages:
on the first DEVICES message it reads devices[0] (KeyError when the
key is missing, IndexError when the list is empty), overwrites a falsy
unique_id with the derived slug and breaks; onEnd is what iteration
produces when the messages run out (Ok for a normal end of stream,
the raised exception otherwise).  The result is the unique_id after
the loop, or the exception that escaped it. -/
def resolveLoop (uid : Option String) (onEnd : Except PyExc (Option String)) :
    List (Message α) → Except PyExc (Option String)
  | [] => onEnd
  | m :: ms =>
    if m.cls = "DEVICES" then
      match m.devices with
      | none => .error .keyError
      | some [] => .error .indexError
      | some (d :: _) =>
        .ok (if pyFalsyOpt uid then some (deriveUid d) else uid)
    else resolveLoop uid onEnd ms

/-- The outcome of the whole try-block iteration of the setup routine:
run the loop over the yielded messages; when the stream ends normally
the unique_id is left as the loop produced it, and when the stream
raises, the exception propagates out of the loop. -/
def setupLoopResult (unique_id : Option String) :
    StreamOutcome α → Except PyExc (Option String)
  | .ends msgs => resolveLoop unique_id (.ok unique_id) msgs
  | .raises msgs e => resolveLoop unique_id (.error e) msgs

/-- async_setup_platform of sensor.py: run the resolver loop inside the
try block; a ConnectionError or EnvironmentError is caught and the
routine returns (handled failure, no entity); any other exception
escapes; otherwise the GpsdClient entity is added with the resolved
unique id. -/
def async_setup_platform (name host : String) (port : Nat)
    (unique_id : Option String) (s : StreamOutcome α) : SetupResult α :=
  match setupLoopResult unique_id s with
  | .ok uid => .added (GpsdClient.init name host port uid)
  | .error e => if isSetupCaught e then .handledFailure else .uncaught e

/-- The first message of class TPV among the yielded messages. -/
def findTPV : List (Message α) → Option (Message α)
  | [] => none
  | m :: ms => if m.cls = "TPV" then some m else findTPV ms

/-- The try-block body of get_tpv: iterate the stream until a TPV
message arrives and return it; an empty result stands for the final
return {}; an exception raised by the stream propagates. -/
def get_tpv_body (s : StreamOutcome α) : Except PyExc (Option (Message α)) :=
  match findTPV s.msgs with
  | some m => .ok (some m)
  | none =>
    match s with
    | .ends _ => .ok none
    | .raises _ e => .error e

/-- get_tpv of GpsdClient.async_update: the except-Exception clause
catches every exception and the function falls through to return {},
modelled as none. -/
def get_tpv (s : StreamOutcome α) : Option (Message α) :=
  match get_tpv_body s with
  | .ok r => r
  | .error _ => none

/-- GpsdClient.async_update: fetch one TPV message; when the fetch
produced data (the dict is truthy), copy each field out of it with
dict.get (mode with default 0); otherwise leave the state untouched. -/
def GpsdClient.async_update (st : GpsdClient α) (s : StreamOutcome α) :
    GpsdClient α :=
  match get_tpv s with
  | none => st
  | some g =>
    { st with
      lat := g.lat
      lon := g.lon
      alt := g.alt
      time := g.time
      speed := g.speed
      climb := g.climb
      mode := g.mode.getD 0 }

/-- GpsdClient.mode_str: decode the stored mode into its label. -/
def GpsdClient.mode_str (st : GpsdClient α) : String :=
  if st.mode = 3 then "3D Fix"
  else if st.mode = 2 then "2D Fix"
  else if st.mode = 1 then "No Fix"
  else "Unknown"

/-- Modelled from the specification wording, for comparison with the
code-derived deriveUid (refinement check of the claim that a missing
device field defaults to empty in the derived identifier): the join of
path, driver and subtype where a missing field contributes the empty
string, then slugified. -/
def deriveUid_spec (d : Device) : String :=
  slugify (d.path.getD "" ++ "_" ++ d.driver.getD "" ++ "_" ++ d.subtype.getD "")

/-- Specification-side characterization of the stored mode after a
sequence of poll cycles: 0 initially, and after each cycle the mode of
the applied TPV message (default 0 when the message has no mode field),
unchanged by a cycle that yields no data. -/
def modeAfterPolls_spec (ss : List (StreamOutcome α)) : Int :=
  ss.foldl
    (fun acc s =>
      match get_tpv s with
      | some m => m.mode.getD 0
      | none => acc)
    0

/-- Messages that are not of class DEVICES are skipped by the setup loop. -/
theorem resolveLoop_skip {α : Type} (uid : Option String)
    (onEnd : Except PyExc (Option String)) (pre l : List (Message α))
    (hpre : ∀ m ∈ pre, m.cls ≠ "DEVICES") :
    resolveLoop uid onEnd (pre ++ l) = resolveLoop uid onEnd l := by
  induction pre with
  | nil => rfl
  | cons m ms ih =>
    have hm : m.cls ≠ "DEVICES" := hpre m (List.mem_cons_self m ms)
    simp only [List.cons_append, resolveLoop, if_neg hm]
    exact ih (fun x hx => hpre x (List.mem_cons_of_mem m hx))

/-- C2: every exception raised inside one poll cycle by the client layer
is caught by the poll operation, which returns the empty no-data result;
no exception propagates to the caller. -/
theorem get_tpv_swallows_exceptions {α : Type} (s : StreamOutcome α)
    (e : PyExc) (h : get_tpv_body s = .error e) : get_tpv s = none := by
  simp [get_tpv, h]

/-- C2 witness: a connection that raises before yielding any message is
an exception inside the poll cycle, and the poll returns no data. -/
theorem get_tpv_swallows_exceptions_witness :
    get_tpv_body (StreamOutcome.raises ([] : List (Message Nat)) .connectionError)
        = .error .connectionError
    ∧ get_tpv (StreamOutcome.raises ([] : List (Message Nat)) .connectionError)
        = none :=
  ⟨rfl, get_tpv_swallows_exceptions _ .connectionError rfl⟩

/-- C3: when the fetch yields no data, every one of the seven fields of
the sensor state (lat, lon, alt, time, speed, climb, mode) is exactly
what it was before the poll cycle. -/
theorem async_update_no_data_frame {α : Type} (st : GpsdClient α)
    (s : StreamOutcome α) (h : get_tpv s = none) :
    (st.async_update s).lat = st.lat ∧ (st.async_update s).lon = st.lon
    ∧ (st.async_update s).alt = st.alt ∧ (st.async_update s).time = st.time
    ∧ (st.async_update s).speed = st.speed ∧ (st.async_update s).climb = st.climb
    ∧ (st.async_update s).mode = st.mode := by
  simp [GpsdClient.async_update, h]

/-- C3 witness: a poll over an immediately raising connection leaves a
concrete populated state untouched in all seven fields. -/
theorem async_update_no_data_frame_witness :
    get_tpv (StreamOutcome.raises ([] : List (Message Nat)) .other) = none
    ∧ ((⟨"n", "h", 2947, none, some 52, some 4, some 11, some 7, some 1,
          some 2, 3⟩ : GpsdClient Nat).async_update
        (StreamOutcome.raises [] .other)).lat = some 52 :=
  ⟨rfl,
    (async_update_no_data_frame
      (⟨"n", "h", 2947, none, some 52, some 4, some 11, some 7, some 1,
          some 2, 3⟩ : GpsdClient Nat)
      (StreamOutcome.raises [] .other) rfl).1⟩

/-- C4: for every TPV message applied by a successful poll, each of the
fields lat, lon, alt, time, speed, climb that is absent from the message
is stored as none in the sensor state (never as any present value such
as zero or the empty string). -/
theorem async_update_absent_fields_none {α : Type} (st : GpsdClient α)
    (s : StreamOutcome α) (m : Message α) (h : get_tpv s = some m) :
    (m.lat = none → (st.async_update s).lat = none)
    ∧ (m.lon = none → (st.async_update s).lon = none)
    ∧ (m.alt = none → (st.async_update s).alt = none)
    ∧ (m.time = none → (st.async_update s).time = none)
    ∧ (m.speed = none → (st.async_update s).speed = none)
    ∧ (m.climb = none → (st.async_update s).climb = none) := by
  simp only [GpsdClient.async_update, h]
  exact ⟨fun hl => hl, fun hl => hl, fun hl => hl, fun hl => hl,
    fun hl => hl, fun hl => hl⟩

/-- C4 witness: applying a TPV message with only a mode field stores
none in all six optional fields of a concrete state. -/
theorem async_update_absent_fields_none_witness :
    get_tpv (StreamOutcome.ends
        [(⟨"TPV", none, none, none, none, none, none, none, some 3⟩ :
            Message String)])
      = some ⟨"TPV", none, none, none, none, none, none, none, some 3⟩
    ∧ (((⟨"n", "h", 2947, none, some "x", some "y", some "z", some "t",
          some "s", some "c", 2⟩ : GpsdClient String).async_update
        (StreamOutcome.ends
          [⟨"TPV", none, none, none, none, none, none, none, some 3⟩])).lat
        = none) :=
  ⟨rfl,
    (async_update_absent_fields_none
      (⟨"n", "h", 2947, none, some "x", some "y", some "z", some "t",
          some "s", some "c", 2⟩ : GpsdClient String)
      (StreamOutcome.ends
        [⟨"TPV", none, none, none, none, none, none, none, some 3⟩])
      ⟨"TPV", none, none, none, none, none, none, none, some 3⟩
      rfl).1 rfl⟩

/-- C5: mode decoding is a pure function of the stored mode value with
the table 3 to 3D Fix, 2 to 2D Fix, 1 to No Fix, everything else
(including 0) to Unknown. -/
theorem mode_str_table {α : Type} (st : GpsdClient α) :
    (st.mode = 3 → st.mode_str = "3D Fix")
    ∧ (st.mode = 2 → st.mode_str = "2D Fix")
    ∧ (st.mode = 1 → st.mode_str = "No Fix")
    ∧ (st.mode ≠ 1 → st.mode ≠ 2 → st.mode ≠ 3 → st.mode_str = "Unknown")
    ∧ (∀ st2 : GpsdClient α, st.mode = st2.mode → st.mode_str = st2.mode_str) := by
  refine ⟨fun h => by simp [GpsdClient.mode_str, h],
    fun h => by simp [GpsdClient.mode_str, h],
    fun h => by simp [GpsdClient.mode_str, h],
    fun h1 h2 h3 => by simp [GpsdClient.mode_str, h1, h2, h3],
    fun st2 h => by simp [GpsdClient.mode_str, h]⟩

/-- C5 witness: the table evaluated at the stored modes 3, 2, 1, 0 and 7
of concrete states. -/
theorem mode_str_table_witness :
    (⟨"n", "h", 1, none, none, none, none, none, none, none, 3⟩ :
        GpsdClient Nat).mode_str = "3D Fix"
    ∧ (⟨"n", "h", 1, none, none, none, none, none, none, none, 2⟩ :
        GpsdClient Nat).mode_str = "2D Fix"
    ∧ (⟨"n", "h", 1, none, none, none, none, none, none, none, 1⟩ :
        GpsdClient Nat).mode_str = "No Fix"
    ∧ (⟨"n", "h", 1, none, none, none, none, none, none, none, 0⟩ :
        GpsdClient Nat).mode_str = "Unknown"
    ∧ (⟨"n", "h", 1, none, none, none, none, none, none, none, 7⟩ :
        GpsdClient Nat).mode_str = "Unknown" :=
  ⟨(mode_str_table _).1 rfl, (mode_str_table _).2.1 rfl,
    (mode_str_table _).2.2.1 rfl,
    (mode_str_table (⟨"n", "h", 1, none, none, none, none, none, none,
        none, 0⟩ : GpsdClient Nat)).2.2.2.1 (by decide) (by decide) (by decide),
    (mode_str_table (⟨"n", "h", 1, none, none, none, none, none, none,
        none, 7⟩ : GpsdClient Nat)).2.2.2.1 (by decide) (by decide) (by decide)⟩

/-- A unique_id that is not falsy (neither None nor empty) is never
overwritten by the setup loop: the loop either produces it unchanged or
lets an exception through. -/
theorem resolveLoop_keeps_uid {α : Type} (uid : Option String)
    (onEnd : Except PyExc (Option String)) (msgs : List (Message α))
    (h : pyFalsyOpt uid = false)
    (hEnd : onEnd = .ok uid ∨ ∃ e, onEnd = .error e) :
    resolveLoop uid onEnd msgs = .ok uid
    ∨ ∃ e, resolveLoop uid onEnd msgs = .error e := by
  induction msgs with
  | nil => exact hEnd
  | cons m ms ih =>
    by_cases hc : m.cls = "DEVICES"
    · cases hd : m.devices with
      | none => exact Or.inr ⟨.keyError, by simp [resolveLoop, hc, hd]⟩
      | some l =>
        cases l with
        | nil => exact Or.inr ⟨.indexError, by simp [resolveLoop, hc, hd]⟩
        | cons d ds => exact Or.inl (by simp [resolveLoop, hc, hd, h])
    · simpa [resolveLoop, hc] using ih

/-- Lifting of resolveLoop_keeps_uid to a whole stream outcome. -/
theorem setupLoopResult_keeps_uid {α : Type} (uid : Option String)
    (s : StreamOutcome α) (h : pyFalsyOpt uid = false) :
    setupLoopResult uid s = .ok uid ∨ ∃ e, setupLoopResult uid s = .error e := by
  cases s with
  | ends msgs => exact resolveLoop_keeps_uid uid _ msgs h (Or.inl rfl)
  | raises msgs e => exact resolveLoop_keeps_uid uid _ msgs h (Or.inr ⟨e, rfl⟩)

/-- The setup routine adds an entity exactly when the loop completed
with some resolved unique id, and the entity is freshly initialized
with that id. -/
theorem setup_eq_added {α : Type} (name host : String) (port : Nat)
    (u : Option String) (s : StreamOutcome α) (ent : GpsdClient α) :
    async_setup_platform name host port u s = .added ent
    ↔ ∃ w, setupLoopResult u s = .ok w ∧ GpsdClient.init name host port w = ent := by
  cases hr : setupLoopResult u s with
  | ok w => simp [async_setup_platform, hr]
  | error e => cases hce : isSetupCaught e <;> simp [async_setup_platform, hr, hce]

/-- C9 helper: the stored mode after folding poll cycles over any start
state is the fold of the per-cycle mode step over the start mode. -/
theorem foldl_update_mode {α : Type} (ss : List (StreamOutcome α))
    (st : GpsdClient α) :
    (List.foldl GpsdClient.async_update st ss).mode
      = List.foldl
          (fun acc s =>
            match get_tpv s with
            | some m => m.mode.getD 0
            | none => acc)
          st.mode ss := by
  induction ss generalizing st with
  | nil => rfl
  | cons s ss ih =>
    simp only [List.foldl_cons]
    rw [ih]
    congr 1
    cases hg : get_tpv s <;> simp [GpsdClient.async_update, hg]

/-- C9: the stored mode always has an integer value: 0 at sensor
creation; after a successful poll it equals the mode of the applied TPV
message, or 0 when that message has no mode field; a no-data poll keeps
it; and after any sequence of poll cycles it matches the specification
fold. -/
theorem mode_invariant {α : Type} (name host : String) (port : Nat)
    (u : Option String) :
    (GpsdClient.init (α := α) name host port u).mode = 0
    ∧ (∀ (st : GpsdClient α) (s : StreamOutcome α) (m : Message α),
        get_tpv s = some m → (st.async_update s).mode = m.mode.getD 0)
    ∧ (∀ (st : GpsdClient α) (s : StreamOutcome α),
        get_tpv s = none → (st.async_update s).mode = st.mode)
    ∧ (∀ ss : List (StreamOutcome α),
        (List.foldl GpsdClient.async_update (GpsdClient.init name host port u) ss).mode
          = modeAfterPolls_spec ss) := by
  refine ⟨rfl, ?_, ?_, ?_⟩
  · intro st s m h
    simp [GpsdClient.async_update, h]
  · intro st s h
    simp [GpsdClient.async_update, h]
  · intro ss
    rw [foldl_update_mode]
    rfl

/-- C9 witness: a successful poll applying a TPV message with mode 3
stores 3; a failing poll keeps the prior mode 2. -/
theorem mode_invariant_witness :
    ((⟨"n", "h", 1, none, none, none, none, none, none, none, 2⟩ :
        GpsdClient Nat).async_update
      (StreamOutcome.ends
        [⟨"TPV", none, none, none, none, none, none, none, some 3⟩])).mode = 3
    ∧ ((⟨"n", "h", 1, none, none, none, none, none, none, none, 2⟩ :
        GpsdClient Nat).async_update (StreamOutcome.raises [] .other)).mode = 2 :=
  ⟨(mode_invariant "n" "h" 1 none).2.1
      (⟨"n", "h", 1, none, none, none, none, none, none, none, 2⟩ :
        GpsdClient Nat)
      (StreamOutcome.ends
        [⟨"TPV", none, none, none, none, none, none, none, some 3⟩])
      ⟨"TPV", none, none, none, none, none, none, none, some 3⟩ rfl,
    (mode_invariant "n" "h" 1 none).2.2.1
      (⟨"n", "h", 1, none, none, none, none, none, none, none, 2⟩ :
        GpsdClient Nat)
      (StreamOutcome.raises [] .other) rfl⟩

/-- C10: a DEVICES message without a devices key makes the setup
routine raise an uncaught KeyError, and one with an empty device list
an uncaught IndexError; neither exception class is named by the except
clause, so neither run completes as a handled setup failure. -/
theorem setup_devices_access_uncaught :
    async_setup_platform (α := Nat) "GPSD Client" "localhost" 2947 none
      (StreamOutcome.ends [Message.ofDevices "DEVICES" none])
      = .uncaught .keyError
    ∧ async_setup_platform (α := Nat) "GPSD Client" "localhost" 2947 none
      (StreamOutcome.ends [Message.ofDevices "DEVICES" (some [])])
      = .uncaught .indexError
    ∧ isSetupCaught .keyError = false
    ∧ isSetupCaught .indexError = false :=
  ⟨rfl, rfl, rfl, rfl⟩

/-- C1 counterexample: on the empty stream, which ends without any
DEVICES message and raises nothing, the setup routine still adds the
sensor entity instead of aborting as a handled setup failure. -/
theorem setup_no_devices_cx :
    async_setup_platform (α := Nat) "GPSD Client" "localhost" 2947 none
      (StreamOutcome.ends [])
      = .added (GpsdClient.init "GPSD Client" "localhost" 2947 none)
    ∧ SetupResult.added (GpsdClient.init (α := Nat) "GPSD Client" "localhost"
        2947 none) ≠ SetupResult.handledFailure :=
  ⟨rfl, fun h => SetupResult.noConfusion h⟩

/-- C1 amended: when the stream ends normally without ever yielding a
DEVICES message, the setup routine raises no uncaught exception but it
does add the sensor entity, with the caller-supplied unique id (absent
when none was supplied). -/
theorem setup_no_devices_still_adds {α : Type} (name host : String)
    (port : Nat) (uid : Option String) (msgs : List (Message α))
    (hnd : ∀ m ∈ msgs, m.cls ≠ "DEVICES") :
    async_setup_platform name host port uid (.ends msgs)
      = .added (GpsdClient.init name host port uid) := by
  have hr : resolveLoop uid (Except.ok uid) msgs = .ok uid := by
    have h2 := resolveLoop_skip uid (Except.ok uid) msgs [] hnd
    simpa using h2
  simp [async_setup_platform, setupLoopResult, hr]

/-- C1 amended witness: a stream of one VERSION message ends without a
DEVICES message, and setup adds the entity with no unique id. -/
theorem setup_no_devices_still_adds_witness :
    async_setup_platform (α := Nat) "n" "h" 1 none
      (StreamOutcome.ends [Message.ofDevices "VERSION" none])
      = .added (GpsdClient.init "n" "h" 1 none) :=
  setup_no_devices_still_adds "n" "h" 1 none
    [Message.ofDevices "VERSION" none] (by decide)

/-- C7 counterexample: the caller-supplied identifier consisting of the
empty string is falsy for the Python truthiness test in the setup loop,
so it is overwritten by the device-derived slug: the created sensor
does not carry the supplied identifier. -/
theorem setup_empty_unique_id_cx :
    async_setup_platform (α := Nat) "n" "h" 1 (some "")
      (StreamOutcome.ends
        [Message.ofDevices "DEVICES" (some [⟨some "a", some "b", some "c"⟩])])
      = .added (GpsdClient.init "n" "h" 1 (some "a-b-c"))
    ∧ (some "a-b-c" : Option String) ≠ some "" :=
  ⟨rfl, by decide⟩

/-- C7 amended: for every caller-supplied non-empty identifier, the
created sensor carries exactly that identifier, regardless of the
stream contents (a supplied empty string is treated as absent by the
truthiness test and may be overwritten). -/
theorem setup_nonempty_unique_id_verbatim {α : Type} (name host : String)
    (port : Nat) (u : String) (s : StreamOutcome α) (ent : GpsdClient α)
    (hu : u ≠ "") (h : async_setup_platform name host port (some u) s = .added ent) :
    ent.uid = some u := by
  have hf : pyFalsyOpt (some u) = false := by simp [pyFalsyOpt, hu]
  rcases (setup_eq_added name host port (some u) s ent).mp h with ⟨w, hw, hent⟩
  rcases setupLoopResult_keeps_uid (some u) s hf with hk | ⟨e, hk⟩
  · rw [hk] at hw
    cases hw
    rw [← hent]
    rfl
  · rw [hk] at hw
    cases hw

/-- C7 amended witness: the supplied id "mygps" survives a stream whose
DEVICES message would have derived a different slug. -/
theorem setup_nonempty_unique_id_verbatim_witness :
    ("mygps" : String) ≠ ""
    ∧ (GpsdClient.init (α := Nat) "n" "h" 1 (some "mygps")).uid = some "mygps" :=
  ⟨by decide,
    setup_nonempty_unique_id_verbatim (α := Nat) "n" "h" 1 "mygps"
      (StreamOutcome.ends
        [Message.ofDevices "DEVICES" (some [⟨some "a", some "b", some "c"⟩])])
      (GpsdClient.init "n" "h" 1 (some "mygps")) (by decide) rfl⟩

/-- C8 counterexample: a stream in which a DEVICES message does appear
before stream end, but with an empty device list, makes resolution
raise an uncaught IndexError rather than succeed: no entity is added. -/
theorem setup_devices_empty_list_cx :
    async_setup_platform (α := Nat) "n" "h" 1 none
      (StreamOutcome.ends [Message.ofDevices "DEVICES" (some [])])
      = .uncaught .indexError
    ∧ ¬ ∃ ent : GpsdClient Nat,
        async_setup_platform (α := Nat) "n" "h" 1 none
          (StreamOutcome.ends [Message.ofDevices "DEVICES" (some [])])
          = .added ent :=
  ⟨rfl, fun ⟨_, h⟩ => SetupResult.noConfusion h⟩

/-- C8 amended: for every stream whose first DEVICES message carries a
nonempty device list, resolution succeeds, the entity is added with the
identifier derived from the first entry, and that identifier is a
deterministic function of the triple (path, driver, subtype). -/
theorem setup_first_device_resolves {α : Type} (name host : String)
    (port : Nat) (pre rest : List (Message α)) (m : Message α)
    (d : Device) (ds : List Device)
    (hpre : ∀ x ∈ pre, x.cls ≠ "DEVICES") (hm : m.cls = "DEVICES")
    (hd : m.devices = some (d :: ds)) :
    async_setup_platform name host port none (.ends (pre ++ m :: rest))
      = .added (GpsdClient.init name host port (some (deriveUid d)))
    ∧ ∀ d2 : Device, d2.path = d.path → d2.driver = d.driver →
        d2.subtype = d.subtype → deriveUid d2 = deriveUid d := by
  constructor
  · have hr : resolveLoop (α := α) none (Except.ok none) (pre ++ m :: rest)
        = .ok (some (deriveUid d)) := by
      rw [resolveLoop_skip none (Except.ok none) pre (m :: rest) hpre]
      simp [resolveLoop, hm, hd, pyFalsyOpt]
    simp [async_setup_platform, setupLoopResult, hr]
  · intro d2 h1 h2 h3
    simp [deriveUid, h1, h2, h3]

/-- C8 amended witness: a VERSION message followed by a DEVICES message
with one device resolves to the slug of that device's triple. -/
theorem setup_first_device_resolves_witness :
    async_setup_platform (α := Nat) "n" "h" 1 none
      (StreamOutcome.ends
        ([Message.ofDevices "VERSION" none] ++
          Message.ofDevices "DEVICES" (some [⟨some "p", none, some "s"⟩]) :: []))
      = .added (GpsdClient.init "n" "h" 1
          (some (deriveUid ⟨some "p", none, some "s"⟩))) :=
  (setup_first_device_resolves "n" "h" 1 [Message.ofDevices "VERSION" none] []
    (Message.ofDevices "DEVICES" (some [⟨some "p", none, some "s"⟩]))
    ⟨some "p", none, some "s"⟩ [] (by decide) rfl rfl).1

/-- Unfolding of slugRuns at an underscore: the separator closes any
run in progress. -/
theorem slugRuns_underscore (cs : List Char) (acc : List Char) :
    slugRuns (('_') :: cs) acc
      = if acc.isEmpty then slugRuns cs [] else acc.reverse :: slugRuns cs [] :=
  rfl

/-- The text none followed by a separator opens the token list with the
run none. -/
theorem slugRuns_none_head (l : List Char) :
    slugRuns (('n') :: 'o' :: 'n' :: 'e' :: '_' :: l) []
      = ['n', 'o', 'n', 'e'] :: slugRuns l [] :=
  rfl

/-- The text none at the very end of the input yields the run none. -/
theorem slugRuns_none_end :
    slugRuns (('n') :: 'o' :: 'n' :: 'e' :: []) [] = [['n', 'o', 'n', 'e']] :=
  rfl

/-- A separator splits the run computation: everything after it is
tokenized independently of the prefix and of the run in progress. -/
theorem slugRuns_append_sep (l1 l : List Char) (acc : List Char) :
    ∃ ts, slugRuns (l1 ++ ('_') :: l) acc = ts ++ slugRuns l [] := by
  induction l1 generalizing acc with
  | nil =>
    rw [List.nil_append, slugRuns_underscore]
    split
    · exact ⟨[], rfl⟩
    · exact ⟨[acc.reverse], rfl⟩
  | cons c cs ih =>
    rw [List.cons_append]
    by_cases hc : isSlugChar c
    · have h1 : slugRuns (c :: (cs ++ ('_') :: l)) acc
          = slugRuns (cs ++ ('_') :: l) (c :: acc) := by
        simp [slugRuns, hc]
      rw [h1]
      exact ih (c :: acc)
    · have h1 : slugRuns (c :: (cs ++ ('_') :: l)) acc
          = if acc.isEmpty then slugRuns (cs ++ ('_') :: l) []
            else acc.reverse :: slugRuns (cs ++ ('_') :: l) [] := by
        simp [slugRuns, hc]
      rw [h1]
      split
      · exact ih []
      · rcases ih [] with ⟨ts, hts⟩
        exact ⟨acc.reverse :: ts, by rw [hts]; rfl⟩

/-- A run equal to the text none among the slug runs of the lowercased
data gives the token none among the slug tokens. -/
theorem mem_slugTokens_of_runs (s : String)
    (h : ['n', 'o', 'n', 'e'] ∈ slugRuns (lowerData s) []) :
    "none" ∈ slugTokens s := by
  have h2 : List.asString ['n', 'o', 'n', 'e']
      ∈ (slugRuns (lowerData s) []).map List.asString :=
    List.mem_map_of_mem List.asString h
  have h3 : List.asString ['n', 'o', 'n', 'e'] = "none" := by decide
  rw [h3] at h2
  exact h2

/-- Lowercasing distributes over string append. -/
theorem lowerData_append (s t : String) :
    lowerData (s ++ t) = lowerData s ++ lowerData t := by
  simp [lowerData, String.data_append]

/-- Lowercased character data of the rendering of a missing field. -/
theorem lowerData_None : lowerData "None" = ['n', 'o', 'n', 'e'] := by
  decide

/-- Lowercased character data of the join separator. -/
theorem lowerData_underscore : lowerData "_" = [('_')] := by
  decide

/-- Lowercased character data of the rendering of a missing field
followed by the separator. -/
theorem lowerData_None_sep :
    lowerData "None_" = ('n') :: 'o' :: 'n' :: 'e' :: '_' :: [] := by
  decide

/-- C6 counterexample: with all three device fields missing, the
code-derived identifier is none-none-none, while defaulting missing
fields to empty (the spec reading, deriveUid_spec) would give the empty
identifier; the two disagree, and the missing fields do contribute the
non-empty token none. -/
theorem deriveUid_missing_cx :
    deriveUid ⟨none, none, none⟩ = "none-none-none"
    ∧ deriveUid_spec ⟨none, none, none⟩ = ""
    ∧ deriveUid ⟨none, none, none⟩ ≠ deriveUid_spec ⟨none, none, none⟩ := by
  refine ⟨?_, ?_, ?_⟩ <;> decide

/-- C6 amended: the derived identifier is the hyphen join of the slug
tokens of the underscore join of path, driver and subtype, where a
missing field renders as the Python text None; hence every missing
field contributes the non-empty token none to the identifier. -/
theorem deriveUid_missing_renders_none (d : Device) :
    deriveUid d = String.intercalate "-"
      (slugTokens (pyStr d.path ++ "_" ++ pyStr d.driver ++ "_" ++ pyStr d.subtype))
    ∧ (d.path = none → "none" ∈
        slugTokens (pyStr d.path ++ "_" ++ pyStr d.driver ++ "_" ++ pyStr d.subtype))
    ∧ (d.driver = none → "none" ∈
        slugTokens (pyStr d.path ++ "_" ++ pyStr d.driver ++ "_" ++ pyStr d.subtype))
    ∧ (d.subtype = none → "none" ∈
        slugTokens (pyStr d.path ++ "_" ++ pyStr d.driver ++ "_" ++ pyStr d.subtype)) := by
  refine ⟨rfl, ?_, ?_, ?_⟩
  · intro hp
    apply mem_slugTokens_of_runs
    have he : lowerData (pyStr d.path ++ "_" ++ pyStr d.driver ++ "_" ++ pyStr d.subtype)
        = ('n') :: 'o' :: 'n' :: 'e' :: '_' ::
            (lowerData (pyStr d.driver) ++ ('_') :: lowerData (pyStr d.subtype)) := by
      rw [hp]
      simp [lowerData_append, lowerData_None, lowerData_underscore,
        lowerData_None_sep, pyStr]
    rw [he, slugRuns_none_head]
    exact List.mem_cons_self _ _
  · intro hdr
    apply mem_slugTokens_of_runs
    have he : lowerData (pyStr d.path ++ "_" ++ pyStr d.driver ++ "_" ++ pyStr d.subtype)
        = lowerData (pyStr d.path) ++ ('_') ::
            (('n') :: 'o' :: 'n' :: 'e' :: '_' :: lowerData (pyStr d.subtype)) := by
      rw [hdr]
      simp [lowerData_append, lowerData_None, lowerData_underscore, pyStr]
    rw [he]
    rcases slugRuns_append_sep (lowerData (pyStr d.path))
        (('n') :: 'o' :: 'n' :: 'e' :: '_' :: lowerData (pyStr d.subtype)) []
      with ⟨ts, hts⟩
    rw [hts, slugRuns_none_head]
    exact List.mem_append_right _ (List.mem_cons_self _ _)
  · intro hst
    apply mem_slugTokens_of_runs
    have he : lowerData (pyStr d.path ++ "_" ++ pyStr d.driver ++ "_" ++ pyStr d.subtype)
        = (lowerData (pyStr d.path) ++ ('_') :: lowerData (pyStr d.driver))
            ++ ('_') :: (('n') :: 'o' :: 'n' :: 'e' :: []) := by
      rw [hst]
      simp [lowerData_append, lowerData_None, lowerData_underscore, pyStr]
    rw [he]
    rcases slugRuns_append_sep
        (lowerData (pyStr d.path) ++ ('_') :: lowerData (pyStr d.driver))
        (('n') :: 'o' :: 'n' :: 'e' :: []) []
      with ⟨ts, hts⟩
    rw [hts]
    refine List.mem_append_right _ ?_
    rw [slugRuns_none_end]
    exact List.mem_cons_self _ _

/-- C6 amended witness: for a device whose path and subtype are missing,
the token none appears among the slug tokens of the join. -/
theorem deriveUid_missing_renders_none_witness :
    "none" ∈ slugTokens (pyStr (Device.mk none (some "A") none).path ++ "_"
      ++ pyStr (Device.mk none (some "A") none).driver ++ "_"
      ++ pyStr (Device.mk none (some "A") none).subtype) :=
  (deriveUid_missing_renders_none ⟨none, some "A", none⟩).2.1 rfl
